import Mathlib

/-!
# TikSpyder persistence core — formal model

A shallow embedding of `src/databases/utilities.py` and
`src/databases/sql_manager.py` (the extraction/normalization layer and the
SQLite persistence gateway of the TikSpyder repository), together with
theorems settling the specification's claims about it.

Python values flowing through the raw records are modelled by `PyVal`
(`None`, `str`, `list[str]`); a raw record (Python `dict`) is an association
list with first-binding lookup, matching `dict.get`.  Operations that can
raise a Python exception are modelled as `Option`-valued, `none` standing
for the raised exception.
-/

set_option autoImplicit false

namespace TikSpyder

/-- A Python value as it occurs in a raw scraped record: `None`, a string,
or a list of strings (`snippet_highlighted_words`). -/
inductive PyVal where
  | pyNone : PyVal
  | pyStr : String → PyVal
  | pyList : List String → PyVal
deriving DecidableEq

/-- A raw record (Python `dict`): association list from keys to values. -/
abbrev Entry := List (String × PyVal)

/-- `entry.get(k, d)`: the first binding of `k`, or the default `d`. -/
def pyGetD (entry : Entry) (k : String) (d : PyVal) : PyVal :=
  (entry.lookup k).getD d

/-- Coercion demanded by operations that require a `str` argument
(`re.search`, `str.split`): a non-string raises `TypeError` /
`AttributeError`, modelled as `none`. -/
def asStr : PyVal → Option String
  | .pyStr s => some s
  | _ => none

/-- Python `f'{v}'` interpolation: `str()` of the value.  (For a list of
strings the repr is modelled for quote-free elements, which is the only
shape expressible in `PyVal`.) -/
def fstr : PyVal → String
  | .pyNone => "None"
  | .pyStr s => s
  | .pyList l => "[" ++ ", ".intercalate (l.map (fun s => "'" ++ s ++ "'")) ++ "]"

/-- Python truthiness of a `PyVal` (`None`, `''` and `[]` are falsy). -/
def pyTruthy : PyVal → Bool
  | .pyNone => false
  | .pyStr s => decide (s ≠ "")
  | .pyList l => decide (l ≠ [])

/-! ## The regex engine for `extract_likes_comments`

The source compiles `(\d+(?:[\d,.]*\d+)?(?:[KM])?) Likes` (and the same
with `Comments`) with `re.IGNORECASE` and calls `.search`.  The embedding
implements exactly this pattern as a backtracking matcher over `List Char`,
with the same greedy candidate order as the Python engine, trying start
positions left to right (`re.search` leftmost-match semantics). -/

/-- Character class `[\d,.]` of the pattern. -/
def numClass (c : Char) : Bool := c.isDigit || c = ',' || c = '.'

/-- Character class `[KM]` under `re.IGNORECASE`. -/
def kmClass (c : Char) : Bool := c = 'K' || c = 'M' || c = 'k' || c = 'm'

/-- Candidate splits for `p*` (greedy): consume `k` characters of the
maximal `p`-prefix, longest first, down to the empty split. -/
def greedyTakes (p : Char → Bool) (s : List Char) : List (List Char × List Char) :=
  let n := (s.takeWhile p).length
  ((List.range (n + 1)).reverse).map (fun k => (s.take k, s.drop k))

/-- Candidate splits for `p+` (greedy): like `greedyTakes` but at least one
character. -/
def plusTakes (p : Char → Bool) (s : List Char) : List (List Char × List Char) :=
  let n := (s.takeWhile p).length
  (((List.range n).map (fun k => k + 1)).reverse).map (fun k => (s.take k, s.drop k))

/-- Candidate splits for `(?:[KM])?` (greedy: the one-character option
before the empty option). -/
def kmTakes (s : List Char) : List (List Char × List Char) :=
  match s with
  | c :: r => if kmClass c then [([c], r), ([], c :: r)] else [([], c :: r)]
  | [] => [([], [])]

/-- Candidate splits for `(?:[\d,.]*\d+)?` in the engine's backtracking
order: the greedy inner alternative (`[\d,.]*` longest first, then `\d+`
longest first) before the empty option. -/
def optNumTakes (s : List Char) : List (List Char × List Char) :=
  ((greedyTakes numClass s).flatMap
    (fun xr => (plusTakes Char.isDigit xr.2).map (fun dr => (xr.1 ++ dr.1, dr.2)))) ++
  [([], s)]

/-- First successful result of `f` over the candidate list. -/
def firstSome {α β : Type} (f : α → Option β) : List α → Option β
  | [] => none
  | a :: l =>
    match f a with
    | some b => some b
    | none => firstSome f l

/-- Case-insensitive prefix test (`re.IGNORECASE` literal matching). -/
def startsWithCI : List Char → List Char → Bool
  | [], _ => true
  | _ :: _, [] => false
  | a :: as, b :: bs => (a.toLower = b.toLower) && startsWithCI as bs

/-- Try the whole pattern anchored at the start of `s`; on success return
the group-1 substring (the number with optional suffix), verbatim. -/
def matchPatAt (lit : List Char) (s : List Char) : Option String :=
  firstSome (fun ar =>
    firstSome (fun br =>
      firstSome (fun cr =>
        if startsWithCI lit cr.2 then some (String.mk (ar.1 ++ br.1 ++ cr.1)) else none)
        (kmTakes br.2))
      (optNumTakes ar.2))
    (plusTakes Char.isDigit s)

/-- `re.search`: try each start position left to right. -/
def searchPat (lit : List Char) : List Char → Option String
  | [] => none
  | c :: r =>
    match matchPatAt lit (c :: r) with
    | some g => some g
    | none => searchPat lit r

/-- The literal tail `" Likes"` of the likes pattern (matched
case-insensitively). -/
def likesLit : List Char := " likes".data

/-- The literal tail `" Comments"` of the comments pattern (matched
case-insensitively). -/
def commentsLit : List Char := " comments".data

/-- `extract_likes_comments` (utilities.py, lines 13–40): search the text
independently for the two patterns, returning each matched group verbatim
or `none`. -/
def extract_likes_comments (text : String) : Option String × Option String :=
  (searchPat likesLit text.data, searchPat commentsLit text.data)

/-! ## `extract_author_post_id` -/

/-- Python `str.split('/')`: auxiliary accumulator recursion. -/
def splitSlashAux : List Char → List Char → List String
  | [], acc => [String.mk acc.reverse]
  | c :: r, acc =>
    if c = '/' then String.mk acc.reverse :: splitSlashAux r []
    else splitSlashAux r (c :: acc)

/-- Python `link.split('/')` (keeps empty segments; `"" ↦ [""]`). -/
def splitOnSlash (s : String) : List String :=
  splitSlashAux s.data []

/-- `extract_author_post_id` (utilities.py, lines 46–59):
`link.split('/')[3].replace('@', '')` is the author (an out-of-range index
raises `IndexError`, modelled as `none`; `replace` removes every `'@'`),
the author link is a fixed template around it, and the post id is the last
segment. -/
def extract_author_post_id (link : String) : Option (String × String × String) :=
  let parts := splitOnSlash link
  match parts[3]?, parts.getLast? with
  | some seg, some pid =>
    let author := String.mk (seg.data.filter (fun c => c ≠ '@'))
    some (author, "https://www.tiktok.com/@" ++ author, pid)
  | _, _ => none

-- sanity checks of the embedding against the Python semantics
example : splitOnSlash "" = [""] := by decide
example : splitOnSlash "a//b/" = ["a", "", "b", ""] := by decide
example : splitOnSlash "https://www.tiktok.com/@jane.doe/video/12345" =
    ["https:", "", "www.tiktok.com", "@jane.doe", "video", "12345"] := by decide
example : extract_author_post_id "https://www.tiktok.com/@jane.doe/video/12345" =
    some ("jane.doe", "https://www.tiktok.com/@jane.doe", "12345") := by decide
example : extract_author_post_id "badlink" = none := by decide
example : extract_likes_comments "1.2K Likes, 340 Comments" = (some "1.2K", some "340") := by
  decide
example : extract_likes_comments "no stats here" = (none, none) := by decide
example : extract_likes_comments "1,234 likes" = (some "1,234", none) := by decide

/-! ## Record normalizers

Row types mirror the column order of the `INSERT` statements in
`sql_manager.py` (and of the tuples returned by the normalizers).  Raw
pass-through columns keep the looked-up `PyVal` (with `pyNone` for an
absent key, as `entry.get(k, None)`); derived columns have the type the
Python code always produces for them. -/

/-- One row of `query_search_results` (the 14 data columns, in the
order of the `INSERT` statement / of `get_items_from_search_results`). -/
structure SearchRow where
  source : PyVal
  title : PyVal
  snippet : PyVal
  link : PyVal
  thumbnail : PyVal
  video_link : PyVal
  snippet_highlighted_words : Option String
  displayed_link : PyVal
  title_snippet : String
  likes : Option String
  comments : Option String
  author : String
  link_to_author : String
  post_id : String
deriving DecidableEq

/-- One row of `images_results` (the 7 data columns, in order). -/
structure ImageRow where
  source : PyVal
  title : PyVal
  link : PyVal
  thumbnail : PyVal
  author : String
  link_to_author : String
  post_id : String
deriving DecidableEq

/-- One row of `related_content` (the 4 data columns, in order). -/
structure RelatedRow where
  source : PyVal
  link : PyVal
  thumbnail : PyVal
  title : PyVal
deriving DecidableEq

/-- The `snippet_highlighted_words` column:
`', '.join(entry.get(k, [])) if entry.get(k) else None`.  Python's `join`
over a string joins its characters. -/
def shwField (entry : Entry) : Option String :=
  match pyGetD entry "snippet_highlighted_words" PyVal.pyNone with
  | .pyList l => if l ≠ [] then some (", ".intercalate l) else none
  | .pyStr s => if s ≠ "" then some (", ".intercalate (s.data.map Char.toString)) else none
  | .pyNone => none

/-- The tuple literal of `get_items_from_search_results` (utilities.py,
lines 84–101), given the coerced snippet string and the derived
author/link/post-id triple. -/
def mkSearchRow (entry : Entry) (snippetS : String) (t : String × String × String) :
    SearchRow where
  source := pyGetD entry "source" PyVal.pyNone
  title := pyGetD entry "title" PyVal.pyNone
  snippet := pyGetD entry "snippet" PyVal.pyNone
  link := pyGetD entry "link" PyVal.pyNone
  thumbnail := pyGetD entry "thumbnail" PyVal.pyNone
  video_link := pyGetD entry "video_link" PyVal.pyNone
  snippet_highlighted_words := shwField entry
  displayed_link := pyGetD entry "displayed_link" PyVal.pyNone
  title_snippet := fstr (pyGetD entry "title" (PyVal.pyStr "")) ++ " " ++ snippetS
  likes := (extract_likes_comments snippetS).1
  comments := (extract_likes_comments snippetS).2
  author := t.1
  link_to_author := t.2.1
  post_id := t.2.2

/-- `get_items_from_search_results` (utilities.py, lines 65–101).
`entry.get('snippet', '')` is fed to `re.search` (a non-string raises,
line 79) and `entry.get('link', '')` to `str.split` (a non-string raises,
line 81, as does a short split); `none` models the raised exception. -/
def get_items_from_search_results (entry : Entry) : Option SearchRow :=
  match asStr (pyGetD entry "snippet" (PyVal.pyStr "")) with
  | none => none
  | some snippetS =>
    match asStr (pyGetD entry "link" (PyVal.pyStr "")) with
    | none => none
    | some linkS =>
      match extract_author_post_id linkS with
      | none => none
      | some t => some (mkSearchRow entry snippetS t)

/-- The tuple literal of `get_items_from_images_results` (utilities.py,
lines 121–129). -/
def mkImageRow (entry : Entry) (t : String × String × String) : ImageRow where
  source := pyGetD entry "source" PyVal.pyNone
  title := pyGetD entry "title" PyVal.pyNone
  link := pyGetD entry "link" PyVal.pyNone
  thumbnail := pyGetD entry "thumbnail" PyVal.pyNone
  author := t.1
  link_to_author := t.2.1
  post_id := t.2.2

/-- `get_items_from_images_results` (utilities.py, lines 107–129). -/
def get_items_from_images_results (entry : Entry) : Option ImageRow :=
  match asStr (pyGetD entry "link" (PyVal.pyStr "")) with
  | none => none
  | some linkS =>
    match extract_author_post_id linkS with
    | none => none
    | some t => some (mkImageRow entry t)

/-- `get_items_from_related_content` (utilities.py, lines 135–148): a pure
pass-through; it can raise no exception, so it is a total function. -/
def get_items_from_related_content (entry : Entry) : RelatedRow where
  source := pyGetD entry "source" PyVal.pyNone
  link := pyGetD entry "link" PyVal.pyNone
  thumbnail := pyGetD entry "thumbnail" PyVal.pyNone
  title := pyGetD entry "title" PyVal.pyNone

/-- Spec-side predicate (modelled from the spec's words, for comparison
with the code): a link of the shape
`https://<host>/@<author>/.../<post_id>` — scheme `https:`, empty segment,
non-empty host, an `@`-prefixed author segment whose author part is
non-empty and free of further `@`, and at least one further segment. -/
def linkConforms (link : String) : Bool :=
  match splitOnSlash link with
  | "https:" :: "" :: host :: seg :: rest =>
    decide (host ≠ "") &&
      (match seg.data with
       | '@' :: authorChars => decide (authorChars ≠ []) && decide ('@' ∉ authorChars)
       | _ => false) &&
      decide (rest ≠ [])
  | _ => false

example : linkConforms "https://www.tiktok.com/@jane.doe/video/12345" = true := by decide
example : linkConforms "a/b/c/d" = false := by decide

/-! ## Persistence gateway

State is modelled explicitly: a table is a list of rows; a schema is the
three optional tables (`none` = the table does not exist).  Each public
gateway operation takes a `connOk : Bool` modelling whether
`create_sql_connection` succeeded. -/

/-- Outcome of an insert call, as observable from the source: `ok`
(loop ran to completion), `dbError` (a `sqlite3.Error` was caught and
reported, aborting the loop), `raised` (a non-`sqlite3.Error` exception —
e.g. `IndexError`/`TypeError` from normalization — propagated to the
caller), `connFailed` (no connection; reported, no-op). -/
inductive InsertOutcome where
  | ok : InsertOutcome
  | dbError : InsertOutcome
  | raised : InsertOutcome
  | connFailed : InsertOutcome
deriving DecidableEq

/-- `sqlite3` accepts `str` and `None` as bound parameters and raises a
`sqlite3.Error` on a `list` (unsupported parameter type) — the only
database-level insert failure expressible in this model. -/
def pyBindable : PyVal → Bool
  | .pyList _ => false
  | _ => true

/-- All raw columns of a search row are bindable parameters. -/
def searchRowBindable (r : SearchRow) : Bool :=
  pyBindable r.source && pyBindable r.title && pyBindable r.snippet &&
    pyBindable r.link && pyBindable r.thumbnail && pyBindable r.video_link &&
    pyBindable r.displayed_link

/-- All raw columns of an image row are bindable parameters. -/
def imageRowBindable (r : ImageRow) : Bool :=
  pyBindable r.source && pyBindable r.title && pyBindable r.link &&
    pyBindable r.thumbnail

/-- All raw columns of a related-content row are bindable parameters. -/
def relatedRowBindable (r : RelatedRow) : Bool :=
  pyBindable r.source && pyBindable r.link && pyBindable r.thumbnail &&
    pyBindable r.title

/-- What happens at one entry of an insert loop: normalization raises
(`raised`, uncaught by `except sqlite3.Error`), the `execute` raises a
`sqlite3.Error` (`dbError`, caught and reported), or the row is inserted
and committed (`ok`). -/
def stepKind {Row : Type} (norm : Entry → Option Row) (bindable : Row → Bool)
    (e : Entry) : InsertOutcome :=
  match norm e with
  | none => .raised
  | some r => if bindable r then .ok else .dbError

/-- The `for entry in data` loop of the insert methods
(sql_manager.py, lines 105–123 and analogues): the whole loop is inside one
`try`, so the first exception ends the loop; each successful row was
committed before it (`conn.commit()` inside the loop), so earlier rows are
kept. -/
def insertLoop {Row : Type} (norm : Entry → Option Row) (bindable : Row → Bool) :
    List Entry → List Row → List Row × InsertOutcome
  | [], tab => (tab, .ok)
  | e :: rest, tab =>
    match norm e with
    | none => (tab, .raised)
    | some r =>
      if bindable r then insertLoop norm bindable rest (tab ++ [r])
      else (tab, .dbError)

/-- `insert_search_results` (sql_manager.py, lines 95–127). -/
def insert_search_results (connOk : Bool) (data : List Entry) (tab : List SearchRow) :
    List SearchRow × InsertOutcome :=
  if connOk then insertLoop get_items_from_search_results searchRowBindable data tab
  else (tab, .connFailed)

/-- `insert_images_results` (sql_manager.py, lines 163–193). -/
def insert_images_results (connOk : Bool) (data : List Entry) (tab : List ImageRow) :
    List ImageRow × InsertOutcome :=
  if connOk then insertLoop get_items_from_images_results imageRowBindable data tab
  else (tab, .connFailed)

/-- `insert_related_content` (sql_manager.py, lines 226–255); its
normalizer is total, so normalization never raises here. -/
def insert_related_content (connOk : Bool) (data : List Entry) (tab : List RelatedRow) :
    List RelatedRow × InsertOutcome :=
  if connOk then
    insertLoop (fun e => some (get_items_from_related_content e)) relatedRowBindable data tab
  else (tab, .connFailed)

/-! ## Schema manager -/

/-- The store schema: each table is `none` while it does not exist, and
`some rows` once created. -/
structure DBSchema where
  searchTab : Option (List SearchRow)
  imagesTab : Option (List ImageRow)
  relatedTab : Option (List RelatedRow)
deriving DecidableEq

/-- `create_search_results_table` (sql_manager.py, lines 54–93):
`CREATE TABLE IF NOT EXISTS` — create the empty table when absent,
otherwise leave the store untouched; a failed connection is reported and
the call is a no-op. -/
def create_search_results_table (connOk : Bool) (db : DBSchema) : DBSchema :=
  if connOk then
    match db.searchTab with
    | some _ => db
    | none => { db with searchTab := some [] }
  else db

/-- `create_images_results_table` (sql_manager.py, lines 129–161). -/
def create_images_results_table (connOk : Bool) (db : DBSchema) : DBSchema :=
  if connOk then
    match db.imagesTab with
    | some _ => db
    | none => { db with imagesTab := some [] }
  else db

/-- `create_related_content_table` (sql_manager.py, lines 195–224). -/
def create_related_content_table (connOk : Bool) (db : DBSchema) : DBSchema :=
  if connOk then
    match db.relatedTab with
    | some _ => db
    | none => { db with relatedTab := some [] }
  else db

/-! ## Export facade and link aggregation -/

/-- An in-memory dataframe, as read back from one table. -/
abbrev Df := List (List PyVal)

/-- The fixed table list of `fetch_all_data` (sql_manager.py, line 261). -/
def exportTables : List String := ["query_search_results", "images_results", "related_content"]

/-- Outcome of `fetch_all_data`: the loop completed, was aborted by a
failing table read, or there was no connection. -/
inductive FetchOutcome where
  | completed : FetchOutcome
  | aborted : FetchOutcome
  | noConnection : FetchOutcome
deriving DecidableEq

/-- The `for t in tables` loop of `fetch_all_data` (sql_manager.py,
lines 265–279): one `try` wraps the whole loop, so the first failing read
ends it; each earlier table's CSV was already written. `read` models
`pd.read_sql_query` on one table (`none` = the read raises). -/
def exportLoop (read : String → Option Df) :
    List String → List (String × Df) → List (String × Df) × FetchOutcome
  | [], acc => (acc, .completed)
  | t :: rest, acc =>
    match read t with
    | some df => exportLoop read rest (acc ++ [(t, df)])
    | none => (acc, .aborted)

/-- `fetch_all_data` (sql_manager.py, lines 257–284): the written CSV
files (table name paired with contents), and how the loop ended. -/
def fetch_all_data (connOk : Bool) (read : String → Option Df) :
    List (String × Df) × FetchOutcome :=
  if connOk then exportLoop read exportTables [] else ([], .noConnection)

/-- `get_collected_videos` (sql_manager.py, lines 286–316):
`SELECT link FROM query_search_results UNION SELECT link FROM
images_results` — the distinct values of the combined link columns
(SQL `UNION` removes duplicates, treating `NULL`s as equal) — and `[]`
when the connection cannot be established. -/
def get_collected_videos (connOk : Bool) (searchTab : List SearchRow)
    (imagesTab : List ImageRow) : List PyVal :=
  if connOk then (searchTab.map SearchRow.link ++ imagesTab.map ImageRow.link).dedup
  else []

/-! ## Concrete fixtures used by witnesses and counterexamples -/

/-- A well-formed TikTok video link. -/
def goodLink : String := "https://www.tiktok.com/@jane.doe/video/12345"

/-- A raw record carrying only a well-formed link. -/
def eGood : Entry := [("link", PyVal.pyStr goodLink)]

/-- A raw record whose link lacks the expected path shape (fewer than four
slash-separated segments). -/
def eBadLink : Entry := [("link", PyVal.pyStr "badlink")]

/-- A raw record in which `snippet` is present but bound to `None`. -/
def eSnipNull : Entry := [("snippet", PyVal.pyNone), ("link", PyVal.pyStr goodLink)]

/-- The row produced by normalizing `eGood`. -/
def rowJane : SearchRow :=
  mkSearchRow eGood "" ("jane.doe", "https://www.tiktok.com/@jane.doe", "12345")

/-! ## Helper lemmas -/

/-- Fewer than four `/`-segments: index 3 is out of range, the lookup
raises `IndexError`, so the derivation fails. -/
theorem extract_author_post_id_none_of_short (link : String)
    (h : (splitOnSlash link).length < 4) : extract_author_post_id link = none := by
  have h3 : (splitOnSlash link)[3]? = none := List.getElem?_eq_none (by omega)
  cases hlast : (splitOnSlash link).getLast? <;>
    simp [extract_author_post_id, h3, hlast]

/-- At least four `/`-segments: the derivation succeeds. -/
theorem extract_author_post_id_isSome_of_four (link : String)
    (h : 4 ≤ (splitOnSlash link).length) :
    (extract_author_post_id link).isSome = true := by
  have h3 : (splitOnSlash link)[3]? = some (splitOnSlash link)[3] :=
    List.getElem?_eq_getElem (by omega)
  have hne : splitOnSlash link ≠ [] := by
    intro hnil
    rw [hnil] at h
    simp at h
  obtain ⟨pid, hpid⟩ := Option.isSome_iff_exists.mp (List.getLast?_isSome.mpr hne)
  simp [extract_author_post_id, h3, hpid]

/-- A conforming link has at least five segments, so derivation succeeds. -/
theorem linkConforms_extract_isSome (l : String) (hc : linkConforms l = true) :
    (extract_author_post_id l).isSome = true := by
  apply extract_author_post_id_isSome_of_four
  unfold linkConforms at hc
  split at hc
  · next host seg rest heq =>
    rw [heq]
    simp
  · exact absurd hc (by simp)

/-- Elimination principle for a successful search-result normalization:
the row is exactly the tuple literal over the coerced snippet and the
derived author triple. -/
theorem get_items_search_some_elim (entry : Entry) (row : SearchRow)
    (h : get_items_from_search_results entry = some row) :
    ∃ s l t, asStr (pyGetD entry "snippet" (PyVal.pyStr "")) = some s ∧
      asStr (pyGetD entry "link" (PyVal.pyStr "")) = some l ∧
      extract_author_post_id l = some t ∧ row = mkSearchRow entry s t := by
  unfold get_items_from_search_results at h
  split at h
  · exact absurd h (by simp)
  · next s hs =>
    split at h
    · exact absurd h (by simp)
    · next l hl =>
      split at h
      · exact absurd h (by simp)
      · next t ht =>
        exact ⟨s, l, t, hs, hl, ht, (Option.some.injEq _ _ ▸ h).symm⟩

/-- Elimination principle for a successful image-result normalization. -/
theorem get_items_images_some_elim (entry : Entry) (row : ImageRow)
    (h : get_items_from_images_results entry = some row) :
    ∃ l t, asStr (pyGetD entry "link" (PyVal.pyStr "")) = some l ∧
      extract_author_post_id l = some t ∧ row = mkImageRow entry t := by
  unfold get_items_from_images_results at h
  split at h
  · exact absurd h (by simp)
  · next l hl =>
    split at h
    · exact absurd h (by simp)
    · next t ht =>
      exact ⟨l, t, hl, ht, (Option.some.injEq _ _ ▸ h).symm⟩

/-! ## Claims -/

/-- C10: the degrade-to-null guarantee covers only absent keys: a record
whose `snippet` key is present and bound to `None` makes
`get_items_from_search_results` raise (the `None` reaches `re.search`,
which rejects non-string input), rather than emitting null fields. -/
theorem snippet_null_raises_spec (entry : Entry)
    (h : entry.lookup "snippet" = some PyVal.pyNone) :
    get_items_from_search_results entry = none := by
  simp [get_items_from_search_results, pyGetD, h, asStr]

/-- C10 witness: a concrete record with `snippet: None` and a well-formed
link is rejected by the normalizer. -/
theorem snippet_null_raises_witness : get_items_from_search_results eSnipNull = none :=
  snippet_null_raises_spec eSnipNull (by decide)

/-- C5: `extract_likes_comments` finds, case-insensitively, the first
number (digits, optional thousands separators / decimal point, optional
K/M suffix) immediately followed by the word "Likes", and independently
one followed by "Comments", returning each matched numeric substring
verbatim or `none`; a text may yield one, both, or neither.  The final
conjunct states the independence of the two searches: each component is
a search of the text for its own pattern alone. -/
theorem extract_likes_comments_spec :
    extract_likes_comments "1.2K Likes, 340 Comments" = (some "1.2K", some "340") ∧
    extract_likes_comments "no stats here" = (none, none) ∧
    extract_likes_comments "1,234 Likes" = (some "1,234", none) ∧
    extract_likes_comments "7 comments" = (none, some "7") ∧
    (∀ text : String,
      extract_likes_comments text =
        (searchPat likesLit text.data, searchPat commentsLit text.data)) :=
  ⟨by decide, by decide, by decide, by decide, fun _ => rfl⟩

/-- C4 (amended): on a link of the conforming shape
`https://<host>/@<author>/.../<post_id>` (author non-empty and free of
further `@`), the derivation returns the author of the 4th segment with
the `@` stripped, the canonical profile link around it, and the final
segment as post id; in particular at the spec's example link. -/
theorem extract_author_conforming_spec :
    (∀ (link host author : String) (mid : List String) (pid : String),
      splitOnSlash link = "https:" :: "" :: host :: ("@" ++ author) :: (mid ++ [pid]) →
      host ≠ "" → author ≠ "" → '@' ∉ author.data →
      extract_author_post_id link =
        some (author, "https://www.tiktok.com/@" ++ author, pid)) ∧
    extract_author_post_id "https://www.tiktok.com/@jane.doe/video/12345" =
      some ("jane.doe", "https://www.tiktok.com/@jane.doe", "12345") := by
  constructor
  · intro link host author mid pid hsplit hhost hauthor hat
    have hlist : "https:" :: "" :: host :: ("@" ++ author) :: (mid ++ [pid]) =
        ("https:" :: "" :: host :: ("@" ++ author) :: mid) ++ [pid] := by
      simp
    have h3 : (splitOnSlash link)[3]? = some ("@" ++ author) := by
      rw [hsplit]
      simp
    have hlast : (splitOnSlash link).getLast? = some pid := by
      rw [hsplit, hlist]
      exact List.getLast?_concat _
    have hfilter : List.filter (fun c => !decide (c = '@')) author.data = author.data :=
      List.filter_eq_self.mpr (fun a ha => by
        have : a ≠ '@' := fun hcontra => hat (hcontra ▸ ha)
        simp [this])
    simp [extract_author_post_id, h3, hlast, hfilter]
  · decide

/-- C4 witness: the general part applied to the spec's example link. -/
theorem extract_author_conforming_witness :
    extract_author_post_id goodLink =
      some ("jane.doe", "https://www.tiktok.com/@jane.doe", "12345") :=
  extract_author_conforming_spec.1 goodLink "www.tiktok.com" "jane.doe" ["video"] "12345"
    (by decide) (by decide) (by decide) (by decide)

/-- C3 counterexample: `"a/b/c/d"` does not conform to the URL shape
`https://<host>/@<author>/.../<post_id>`, yet the derivation does not fail
loudly — it returns non-null values, and the normalizer accepts a record
with this link. -/
theorem extract_author_nonconforming_cex :
    linkConforms "a/b/c/d" = false ∧
    extract_author_post_id "a/b/c/d" = some ("d", "https://www.tiktok.com/@d", "d") ∧
    (get_items_from_search_results [("link", PyVal.pyStr "a/b/c/d")]).isSome = true := by
  refine ⟨by decide, by decide, by decide⟩

/-- C3 (amended): the derivation fails loudly exactly on links with fewer
than four `/`-separated segments (then the whole normalization call fails
outward); any link with at least four segments — conforming or not —
yields values.  The last two conjuncts state that the derived triple is a
function of the `link` field alone, for both normalizers. -/
theorem extract_author_failure_spec :
    (∀ link : String, (splitOnSlash link).length < 4 →
      extract_author_post_id link = none) ∧
    (∀ link : String, 4 ≤ (splitOnSlash link).length →
      (extract_author_post_id link).isSome = true) ∧
    (∀ (entry : Entry) (l : String),
      entry.lookup "link" = some (PyVal.pyStr l) → (splitOnSlash l).length < 4 →
      get_items_from_search_results entry = none) ∧
    (∀ (entry : Entry) (row : SearchRow),
      get_items_from_search_results entry = some row →
      ∃ l, asStr (pyGetD entry "link" (PyVal.pyStr "")) = some l ∧
        extract_author_post_id l = some (row.author, row.link_to_author, row.post_id)) ∧
    (∀ (entry : Entry) (row : ImageRow),
      get_items_from_images_results entry = some row →
      ∃ l, asStr (pyGetD entry "link" (PyVal.pyStr "")) = some l ∧
        extract_author_post_id l = some (row.author, row.link_to_author, row.post_id)) := by
  refine ⟨extract_author_post_id_none_of_short, extract_author_post_id_isSome_of_four,
    ?_, ?_, ?_⟩
  · intro entry l hlink hshort
    have hext := extract_author_post_id_none_of_short l hshort
    have hl : asStr (pyGetD entry "link" (PyVal.pyStr "")) = some l := by
      simp [pyGetD, hlink, asStr]
    cases hs : asStr (pyGetD entry "snippet" (PyVal.pyStr "")) with
    | none => simp only [get_items_from_search_results, hs]
    | some s => simp only [get_items_from_search_results, hs, hl, hext]
  · intro entry row h
    obtain ⟨s, l, t, _, hl, ht, hrow⟩ := get_items_search_some_elim entry row h
    exact ⟨l, hl, by rw [hrow]; simpa [mkSearchRow] using ht⟩
  · intro entry row h
    obtain ⟨l, t, hl, ht, hrow⟩ := get_items_images_some_elim entry row h
    exact ⟨l, hl, by rw [hrow]; simpa [mkImageRow] using ht⟩

/-- C3 witness: the amended failure condition at a concrete short link,
and the triple-determination at a concrete record. -/
theorem extract_author_failure_witness :
    extract_author_post_id "badlink" = none ∧
    get_items_from_search_results eBadLink = none :=
  ⟨extract_author_failure_spec.1 "badlink" (by decide),
   extract_author_failure_spec.2.2.1 eBadLink "badlink" (by decide) (by decide)⟩

/-- C2: on a raw record whose `link` is present and well-formed, whose
`snippet` (if present) is a string, and with any subset of the other known
keys absent, each normalizer succeeds — returning its full fixed-arity row
(14, 7 and 4 columns respectively, by the row types) — and every
non-derived column whose key is absent from the record is null.  The
related-content normalizer is total, so it needs no precondition at all. -/
theorem normalizers_absent_to_null :
    (∀ (entry : Entry) (l : String),
      entry.lookup "link" = some (PyVal.pyStr l) →
      linkConforms l = true →
      (∀ v, entry.lookup "snippet" = some v → ∃ s, v = PyVal.pyStr s) →
      ∃ row : SearchRow, get_items_from_search_results entry = some row ∧
        (entry.lookup "source" = none → row.source = PyVal.pyNone) ∧
        (entry.lookup "title" = none → row.title = PyVal.pyNone) ∧
        (entry.lookup "snippet" = none → row.snippet = PyVal.pyNone) ∧
        (entry.lookup "thumbnail" = none → row.thumbnail = PyVal.pyNone) ∧
        (entry.lookup "video_link" = none → row.video_link = PyVal.pyNone) ∧
        (entry.lookup "snippet_highlighted_words" = none →
          row.snippet_highlighted_words = none) ∧
        (entry.lookup "displayed_link" = none → row.displayed_link = PyVal.pyNone)) ∧
    (∀ (entry : Entry) (l : String),
      entry.lookup "link" = some (PyVal.pyStr l) →
      linkConforms l = true →
      ∃ row : ImageRow, get_items_from_images_results entry = some row ∧
        (entry.lookup "source" = none → row.source = PyVal.pyNone) ∧
        (entry.lookup "title" = none → row.title = PyVal.pyNone) ∧
        (entry.lookup "thumbnail" = none → row.thumbnail = PyVal.pyNone)) ∧
    (∀ entry : Entry,
      (entry.lookup "source" = none →
        (get_items_from_related_content entry).source = PyVal.pyNone) ∧
      (entry.lookup "link" = none →
        (get_items_from_related_content entry).link = PyVal.pyNone) ∧
      (entry.lookup "thumbnail" = none →
        (get_items_from_related_content entry).thumbnail = PyVal.pyNone) ∧
      (entry.lookup "title" = none →
        (get_items_from_related_content entry).title = PyVal.pyNone)) := by
  refine ⟨?_, ?_, ?_⟩
  · intro entry l hlink hconf hsnip
    have hl : asStr (pyGetD entry "link" (PyVal.pyStr "")) = some l := by
      simp [pyGetD, hlink, asStr]
    obtain ⟨t, ht⟩ := Option.isSome_iff_exists.mp (linkConforms_extract_isSome l hconf)
    have hsn : ∃ s, asStr (pyGetD entry "snippet" (PyVal.pyStr "")) = some s := by
      cases hs : entry.lookup "snippet" with
      | none => exact ⟨"", by simp [pyGetD, hs, asStr]⟩
      | some v =>
        obtain ⟨s, rfl⟩ := hsnip v hs
        exact ⟨s, by simp [pyGetD, hs, asStr]⟩
    obtain ⟨s, hsn⟩ := hsn
    refine ⟨mkSearchRow entry s t, ?_, ?_, ?_, ?_, ?_, ?_, ?_, ?_⟩
    · simp only [get_items_from_search_results, hsn, hl, ht]
    · intro h
      simp [mkSearchRow, pyGetD, h]
    · intro h
      simp [mkSearchRow, pyGetD, h]
    · intro h
      simp [mkSearchRow, pyGetD, h]
    · intro h
      simp [mkSearchRow, pyGetD, h]
    · intro h
      simp [mkSearchRow, pyGetD, h]
    · intro h
      simp [mkSearchRow, shwField, pyGetD, h]
    · intro h
      simp [mkSearchRow, pyGetD, h]
  · intro entry l hlink hconf
    have hl : asStr (pyGetD entry "link" (PyVal.pyStr "")) = some l := by
      simp [pyGetD, hlink, asStr]
    obtain ⟨t, ht⟩ := Option.isSome_iff_exists.mp (linkConforms_extract_isSome l hconf)
    refine ⟨mkImageRow entry t, ?_, ?_, ?_, ?_⟩
    · simp only [get_items_from_images_results, hl, ht]
    · intro h
      simp [mkImageRow, pyGetD, h]
    · intro h
      simp [mkImageRow, pyGetD, h]
    · intro h
      simp [mkImageRow, pyGetD, h]
  · intro entry
    refine ⟨?_, ?_, ?_, ?_⟩ <;>
      (intro h; simp [get_items_from_related_content, pyGetD, h])

/-- C2 witness: a record holding only a well-formed link is accepted by
both link-deriving normalizers, and the related normalizer nulls every
field of the empty record. -/
theorem normalizers_absent_to_null_witness :
    (get_items_from_search_results eGood).isSome = true ∧
    (get_items_from_images_results eGood).isSome = true ∧
    (get_items_from_related_content []).source = PyVal.pyNone := by
  have hsnip : ∀ v, eGood.lookup "snippet" = some v → ∃ s, v = PyVal.pyStr s := by
    intro v hv
    rw [show eGood.lookup "snippet" = none from by decide] at hv
    exact Option.noConfusion hv
  obtain ⟨row, hrow, -⟩ :=
    normalizers_absent_to_null.1 eGood goodLink (by decide) (by decide) hsnip
  obtain ⟨irow, hirow, -⟩ :=
    normalizers_absent_to_null.2.1 eGood goodLink (by decide) (by decide)
  exact ⟨by rw [hrow]; rfl, by rw [hirow]; rfl,
    (normalizers_absent_to_null.2.2 ([] : Entry)).1 rfl⟩

/-- Spec-side: the string bound to `k` in the record, defaulting to the
empty string when the key is absent. -/
def strFieldD (entry : Entry) (k : String) : String :=
  match entry.lookup k with
  | some (.pyStr s) => s
  | _ => ""

/-- C6: whenever the SearchResult normalizer emits a row, its
`title_snippet` column is the concatenation `title ++ " " ++ snippet`,
where `title` and `snippet` default to the empty string when their key is
absent; the column's type (`String`, never an optional) reflects that it
is never null, even with both keys absent. -/
theorem title_snippet_concat_spec (entry : Entry) (row : SearchRow)
    (htitle : ∀ v, entry.lookup "title" = some v → ∃ s, v = PyVal.pyStr s)
    (hsnip : ∀ v, entry.lookup "snippet" = some v → ∃ s, v = PyVal.pyStr s)
    (h : get_items_from_search_results entry = some row) :
    row.title_snippet = strFieldD entry "title" ++ " " ++ strFieldD entry "snippet" := by
  obtain ⟨s, l, t, hs, -, -, hrow⟩ := get_items_search_some_elim entry row h
  have h1 : fstr (pyGetD entry "title" (PyVal.pyStr "")) = strFieldD entry "title" := by
    cases hl : entry.lookup "title" with
    | none => simp [pyGetD, fstr, strFieldD, hl]
    | some v =>
      obtain ⟨s', rfl⟩ := htitle v hl
      simp [pyGetD, fstr, strFieldD, hl]
  have h2 : s = strFieldD entry "snippet" := by
    cases hl : entry.lookup "snippet" with
    | none =>
      rw [show pyGetD entry "snippet" (PyVal.pyStr "") = PyVal.pyStr "" from by
        simp [pyGetD, hl]] at hs
      simp [asStr] at hs
      simp [strFieldD, hl, hs.symm]
    | some v =>
      obtain ⟨s', rfl⟩ := hsnip v hl
      rw [show pyGetD entry "snippet" (PyVal.pyStr "") = PyVal.pyStr s' from by
        simp [pyGetD, hl]] at hs
      simp [asStr] at hs
      simp [strFieldD, hl, hs.symm]
  rw [hrow]
  show fstr (pyGetD entry "title" (PyVal.pyStr "")) ++ " " ++ s = _
  rw [h1, h2]

/-- C6 witness: with both `title` and `snippet` absent the emitted
`title_snippet` is the single-space concatenation of two empty strings. -/
theorem title_snippet_concat_witness : rowJane.title_snippet = " " := by
  have htitle : ∀ v, eGood.lookup "title" = some v → ∃ s, v = PyVal.pyStr s := by
    intro v hv
    rw [show eGood.lookup "title" = none from by decide] at hv
    exact Option.noConfusion hv
  have hsnip : ∀ v, eGood.lookup "snippet" = some v → ∃ s, v = PyVal.pyStr s := by
    intro v hv
    rw [show eGood.lookup "snippet" = none from by decide] at hv
    exact Option.noConfusion hv
  have h := title_snippet_concat_spec eGood rowJane htitle hsnip (by decide)
  rw [h]
  decide

/-- C7: `get_collected_videos` returns the deduplicated union of the
`link` columns of the search-results and image-results tables — every
distinct stored link value appears exactly once (the list has no
duplicates and membership is exactly membership in either column) — and
returns the empty collection when no connection can be established. -/
theorem get_collected_videos_spec (s : List SearchRow) (i : List ImageRow) :
    get_collected_videos false s i = [] ∧
    (get_collected_videos true s i).Nodup ∧
    ∀ v : PyVal, v ∈ get_collected_videos true s i ↔
      (v ∈ s.map SearchRow.link ∨ v ∈ i.map ImageRow.link) := by
  refine ⟨rfl, ?_, ?_⟩
  · simpa [get_collected_videos] using List.nodup_dedup _
  · intro v
    simp [get_collected_videos, List.mem_dedup, List.mem_append]

/-- The insert loop only ever appends: whatever happens later in the
batch, rows committed earlier (and the pre-existing table) are kept. -/
theorem insertLoop_extends {Row : Type} (norm : Entry → Option Row)
    (bindable : Row → Bool) (data : List Entry) (tab : List Row) :
    ∃ rows, (insertLoop norm bindable data tab).1 = tab ++ rows := by
  induction data generalizing tab with
  | nil => exact ⟨[], by simp [insertLoop]⟩
  | cons e rest ih =>
    cases hn : norm e with
    | none => exact ⟨[], by simp [insertLoop, hn]⟩
    | some r =>
      cases hb : bindable r with
      | false => exact ⟨[], by simp [insertLoop, hn, hb]⟩
      | true =>
        obtain ⟨rows, hr⟩ := ih (tab ++ [r])
        exact ⟨[r] ++ rows, by simp [insertLoop, hn, hb, hr]⟩

/-- The insert loop stops at the first failing entry: a clean prefix is
committed, the failing entry determines the outcome, and the suffix is
never attempted. -/
theorem insertLoop_failstop {Row : Type} (norm : Entry → Option Row)
    (bindable : Row → Bool) (pre : List Entry) (e : Entry) (suf : List Entry)
    (tab tab' : List Row)
    (h : insertLoop norm bindable pre tab = (tab', .ok))
    (hfail : stepKind norm bindable e ≠ .ok) :
    insertLoop norm bindable (pre ++ e :: suf) tab =
      (tab', stepKind norm bindable e) := by
  induction pre generalizing tab with
  | nil =>
    simp only [insertLoop] at h
    injection h with h1 h2
    subst h1
    cases hn : norm e with
    | none => simp [insertLoop, stepKind, hn]
    | some r =>
      cases hb : bindable r with
      | false => simp [insertLoop, stepKind, hn, hb]
      | true => exact absurd (by simp [stepKind, hn, hb]) hfail
  | cons p ps ih =>
    cases hn : norm p with
    | none =>
      simp only [insertLoop, hn] at h
      injection h with h1 h2
      exact InsertOutcome.noConfusion h2
    | some r =>
      cases hb : bindable r with
      | false =>
        simp only [insertLoop, hn, hb] at h
        injection h with h1 h2
        exact InsertOutcome.noConfusion h2
      | true =>
        simp only [insertLoop, hn, hb] at h
        simpa [insertLoop, hn, hb] using ih (tab ++ [r]) h

/-- C1 counterexample: in a batch whose first record has a malformed link
and whose second is well-formed, nothing is persisted — the loop does not
continue with the subsequent row, although that row on its own inserts
fine. -/
theorem insert_abandons_rest_cex :
    insert_search_results true [eBadLink, eGood] [] = ([], InsertOutcome.raised) ∧
    insert_search_results true [eGood] [] = ([rowJane], InsertOutcome.ok) :=
  ⟨by decide, by decide⟩

/-- C1 (amended): for each of the three insert operations, every row
committed before a failure stays committed (the table only grows, no
rollback), and on the first failing row the call ends with that row's
outcome — a database error is caught and reported, a normalization error
propagates — and the remaining rows of the batch are not attempted. -/
theorem insert_batch_spec :
    (∀ (data : List Entry) (tab : List SearchRow),
      ∃ rows, (insert_search_results true data tab).1 = tab ++ rows) ∧
    (∀ (data : List Entry) (tab : List ImageRow),
      ∃ rows, (insert_images_results true data tab).1 = tab ++ rows) ∧
    (∀ (data : List Entry) (tab : List RelatedRow),
      ∃ rows, (insert_related_content true data tab).1 = tab ++ rows) ∧
    (∀ (pre : List Entry) (e : Entry) (suf : List Entry) (tab tab' : List SearchRow),
      insert_search_results true pre tab = (tab', .ok) →
      stepKind get_items_from_search_results searchRowBindable e ≠ .ok →
      insert_search_results true (pre ++ e :: suf) tab =
        (tab', stepKind get_items_from_search_results searchRowBindable e)) ∧
    (∀ (pre : List Entry) (e : Entry) (suf : List Entry) (tab tab' : List ImageRow),
      insert_images_results true pre tab = (tab', .ok) →
      stepKind get_items_from_images_results imageRowBindable e ≠ .ok →
      insert_images_results true (pre ++ e :: suf) tab =
        (tab', stepKind get_items_from_images_results imageRowBindable e)) ∧
    (∀ (pre : List Entry) (e : Entry) (suf : List Entry) (tab tab' : List RelatedRow),
      insert_related_content true pre tab = (tab', .ok) →
      stepKind (fun e => some (get_items_from_related_content e)) relatedRowBindable e ≠ .ok →
      insert_related_content true (pre ++ e :: suf) tab =
        (tab', stepKind (fun e => some (get_items_from_related_content e)) relatedRowBindable e)) := by
  refine ⟨?_, ?_, ?_, ?_, ?_, ?_⟩
  · intro data tab
    simpa [insert_search_results] using insertLoop_extends _ _ data tab
  · intro data tab
    simpa [insert_images_results] using insertLoop_extends _ _ data tab
  · intro data tab
    simpa [insert_related_content] using insertLoop_extends _ _ data tab
  · intro pre e suf tab tab' h hfail
    simp only [insert_search_results, if_true] at h ⊢
    exact insertLoop_failstop _ _ pre e suf tab tab' h hfail
  · intro pre e suf tab tab' h hfail
    simp only [insert_images_results, if_true] at h ⊢
    exact insertLoop_failstop _ _ pre e suf tab tab' h hfail
  · intro pre e suf tab tab' h hfail
    simp only [insert_related_content, if_true] at h ⊢
    exact insertLoop_failstop _ _ pre e suf tab tab' h hfail

/-- C1 witness: a clean one-row prefix before a malformed row: the prefix
row stays committed, the outcome is the propagated normalization error,
and the trailing well-formed row is not inserted. -/
theorem insert_batch_spec_witness :
    insert_search_results true ([eGood] ++ eBadLink :: [eGood]) [] =
      ([rowJane], InsertOutcome.raised) := by
  have h := insert_batch_spec.2.2.2.1 [eGood] eBadLink [eGood] [] [rowJane]
    (by decide) (by decide)
  rw [h]
  decide

/-- A read oracle failing on the second table of the export loop. -/
def readFailImages : String → Option Df :=
  fun t => if t = "images_results" then none else some []

/-- A read oracle failing on the third table of the export loop. -/
def readFailRelated : String → Option Df :=
  fun t => if t = "related_content" then none else some []

/-- C8 counterexample: when reading the second table fails, only the first
table's CSV is written — the third table is not exported, although the
claim says tables after the failing one are unaffected. -/
theorem fetch_abandons_rest_cex :
    fetch_all_data true readFailImages =
      ([("query_search_results", [])], FetchOutcome.aborted) ∧
    "related_content" ∉ (fetch_all_data true readFailImages).1.map Prod.fst :=
  ⟨by decide, by decide⟩

/-- C8 (amended): the export loop processes the three tables in order and
stops at the first failing read: tables exported before the failure keep
their CSV files, the failure is reported, and the failing table and every
table after it are not exported.  When all three reads succeed, all three
CSVs are written; without a connection nothing is. -/
theorem fetch_failfast_spec (read : String → Option Df) (d1 d2 d3 : Df) :
    (read "query_search_results" = some d1 → read "images_results" = some d2 →
      read "related_content" = some d3 →
      fetch_all_data true read =
        ([("query_search_results", d1), ("images_results", d2),
          ("related_content", d3)], .completed)) ∧
    (read "query_search_results" = none → fetch_all_data true read = ([], .aborted)) ∧
    (read "query_search_results" = some d1 → read "images_results" = none →
      fetch_all_data true read = ([("query_search_results", d1)], .aborted)) ∧
    (read "query_search_results" = some d1 → read "images_results" = some d2 →
      read "related_content" = none →
      fetch_all_data true read =
        ([("query_search_results", d1), ("images_results", d2)], .aborted)) ∧
    fetch_all_data false read = ([], .noConnection) := by
  refine ⟨?_, ?_, ?_, ?_, rfl⟩
  · intro h1 h2 h3
    simp [fetch_all_data, exportTables, exportLoop, h1, h2, h3]
  · intro h1
    simp [fetch_all_data, exportTables, exportLoop, h1]
  · intro h1 h2
    simp [fetch_all_data, exportTables, exportLoop, h1, h2]
  · intro h1 h2 h3
    simp [fetch_all_data, exportTables, exportLoop, h1, h2, h3]

/-- C8 witness: failing on the third table leaves the first two CSVs
written and aborts. -/
theorem fetch_failfast_witness :
    fetch_all_data true readFailRelated =
      ([("query_search_results", []), ("images_results", [])], FetchOutcome.aborted) :=
  (fetch_failfast_spec readFailRelated [] [] []).2.2.2.1 (by decide) (by decide) (by decide)

/-- A concrete schema with two existing tables, one of them non-empty. -/
def dbW : DBSchema :=
  { searchTab := some [rowJane], imagesTab := none, relatedTab := some [] }

/-- C9: the three table-ensure operations are idempotent — calling one
twice yields exactly the schema of calling it once, and an
already-existing table keeps its contents; a repeated call is a no-op, so
it can raise no error (the operations are total functions of the model). -/
theorem create_tables_idempotent_spec (c : Bool) (db : DBSchema) :
    create_search_results_table c (create_search_results_table c db) =
      create_search_results_table c db ∧
    create_images_results_table c (create_images_results_table c db) =
      create_images_results_table c db ∧
    create_related_content_table c (create_related_content_table c db) =
      create_related_content_table c db ∧
    (∀ rows, db.searchTab = some rows →
      (create_search_results_table c db).searchTab = some rows) ∧
    (∀ rows, db.imagesTab = some rows →
      (create_images_results_table c db).imagesTab = some rows) ∧
    (∀ rows, db.relatedTab = some rows →
      (create_related_content_table c db).relatedTab = some rows) := by
  refine ⟨?_, ?_, ?_, ?_, ?_, ?_⟩
  · cases c with
    | false => simp [create_search_results_table]
    | true => cases h : db.searchTab <;> simp [create_search_results_table, h]
  · cases c with
    | false => simp [create_images_results_table]
    | true => cases h : db.imagesTab <;> simp [create_images_results_table, h]
  · cases c with
    | false => simp [create_related_content_table]
    | true => cases h : db.relatedTab <;> simp [create_related_content_table, h]
  · intro rows hr
    cases c <;> simp [create_search_results_table, hr]
  · intro rows hr
    cases c <;> simp [create_images_results_table, hr]
  · intro rows hr
    cases c <;> simp [create_related_content_table, hr]

/-- C9 witness: on a schema with existing tables, ensuring preserves the
stored rows of the search table and of the related table. -/
theorem create_tables_idempotent_witness :
    (create_search_results_table true dbW).searchTab = some [rowJane] ∧
    (create_related_content_table true dbW).relatedTab = some [] :=
  ⟨(create_tables_idempotent_spec true dbW).2.2.2.1 [rowJane] rfl,
   (create_tables_idempotent_spec true dbW).2.2.2.2.2 [] rfl⟩

end TikSpyder
